import Mathlib

/-!
Shallow embedding of the two wrapper modules of the chemflow repository:

* `src/chemengine/python/rdkit_wrapper.py`, defining `mol_from_smiles`
  and `mol_weight`;
* `src/crates/chem-engine/python/rdkit_wrapper.py`, defining
  `molecule_info`.

Both modules delegate all chemistry to the external RDKit toolkit, which
this development treats as an opaque collaborator: it is modelled by the
structure `RDKit`, a record of the seven library entry points the two
wrappers call, parametrised by the opaque molecule type `Mol`.  Python
`float` values are modelled by `PyFloat` (a finite rational, a NaN or a
signed infinity), Python dictionary values by `PyVal`, and a raised
`ValueError` by the `Except`-error `PyError.valueError` carrying the
message string.
-/

/-- Model of a Python float: either a finite value (as a rational), a NaN,
or a signed infinity. -/
inductive PyFloat : Type
  | finite (q : ℚ)
  | nan : PyFloat
  | inf : PyFloat
  | neginf : PyFloat
  deriving DecidableEq, Repr

/-- `isFinite` holds exactly on finite float values. -/
def PyFloat.isFinite : PyFloat → Bool
  | .finite _ => true
  | _ => false

/-- Non-negativity of a Python float; NaN and negative infinity are not
non-negative. -/
def PyFloat.nonneg : PyFloat → Bool
  | .finite q => decide (0 ≤ q)
  | .inf => true
  | _ => false

/-- Model of a heterogeneous Python dictionary value as stored by
`molecule_info`: a string, an int, a float, or Python `None`. -/
inductive PyVal : Type
  | str (s : String)
  | int (n : Nat)
  | float (x : PyFloat)
  | none : PyVal
  deriving DecidableEq, Repr

/-- Model of a raised Python exception.  The wrappers only ever raise
`ValueError`; `typeError` is included so that raising specifically a
`ValueError` is an observable fact rather than a triviality. -/
inductive PyError : Type
  | valueError (msg : String)
  | typeError (msg : String)
  deriving DecidableEq, Repr

/-- The opaque external RDKit toolkit, as seen through the seven entry
points the two wrapper modules call.  `Mol` is the opaque molecule type
(`Chem.Mol` in the source).  `MolFromSmiles` returns `Option.none` when the
parser rejects the input, mirroring the source where it returns Python
`None`. -/
structure RDKit (Mol : Type) : Type where
  MolFromSmiles : String → Option Mol
  MolToSmiles : Mol → String
  MolToInchi : Mol → String
  MolToInchiKey : Mol → String
  GetNumAtoms : Mol → Nat
  MolWt : Mol → PyFloat
  CalcMolFormula : Mol → String

/-- The Python builtin `float` coercion.  `Descriptors.MolWt` already
returns a Python float, on which `float` acts as the identity. -/
def float (x : PyFloat) : PyFloat := x

namespace chemengine

/-- Embedding of `mol_from_smiles` from
`src/chemengine/python/rdkit_wrapper.py`: parse the SMILES string; if the
library returns `None`, raise `ValueError("Mol inválido: " + smiles)`. -/
def mol_from_smiles {Mol : Type} (lib : RDKit Mol) (smiles : String) :
    Except PyError Mol :=
  match lib.MolFromSmiles smiles with
  | Option.none => Except.error (PyError.valueError ("Mol inválido: " ++ smiles))
  | Option.some mol => Except.ok mol

/-- Embedding of `mol_weight` from
`src/chemengine/python/rdkit_wrapper.py`: parse via `mol_from_smiles`,
apply `Descriptors.MolWt`, and return the result coerced by `float`. -/
def mol_weight {Mol : Type} (lib : RDKit Mol) (smiles : String) :
    Except PyError PyFloat := do
  let mol ← mol_from_smiles lib smiles
  let descriptor := lib.MolWt mol
  return float descriptor

end chemengine

namespace chem_engine

/-- The six-field descriptor bundle built by `molecule_info` for a parsed
molecule, in source order. -/
def bundle {Mol : Type} (lib : RDKit Mol) (mol : Mol) : List (String × PyVal) :=
  [("smiles", PyVal.str (lib.MolToSmiles mol)),
   ("inchi", PyVal.str (lib.MolToInchi mol)),
   ("inchikey", PyVal.str (lib.MolToInchiKey mol)),
   ("num_atoms", PyVal.int (lib.GetNumAtoms mol)),
   ("mol_weight", PyVal.float (lib.MolWt mol)),
   ("mol_formula", PyVal.str (lib.CalcMolFormula mol))]

/-- Embedding of `molecule_info` from
`src/crates/chem-engine/python/rdkit_wrapper.py`: parse the SMILES string
directly with the library parser; on `None`, raise
`ValueError("SMILES inválido")`; otherwise return the dictionary with the
six descriptor fields, modelled as an association list in source order. -/
def molecule_info {Mol : Type} (lib : RDKit Mol) (smiles : String) :
    Except PyError (List (String × PyVal)) :=
  match lib.MolFromSmiles smiles with
  | Option.none => Except.error (PyError.valueError "SMILES inválido")
  | Option.some mol => Except.ok (bundle lib mol)

end chem_engine

/-- A string `msg` contains `s` as a substring. -/
def strContains (msg s : String) : Prop := ∃ p q, msg = p ++ s ++ q

/-- A concrete instantiation of the opaque toolkit, used to evaluate the
theorems at concrete inputs.  It rejects the empty string and
`"invalid_smiles_string"` and accepts everything else, returning the
descriptors of ethanol. -/
def toyLib : RDKit Unit where
  MolFromSmiles s :=
    if s = "" ∨ s = "invalid_smiles_string" then Option.none else Option.some ()
  MolToSmiles _ := "CCO"
  MolToInchi _ := "InChI=1S/C2H6O/c1-2-3/h3H,2H2,1H3"
  MolToInchiKey _ := "LFQSCWFLJHTTHZ-UHFFFAOYSA-N"
  GetNumAtoms _ := 3
  MolWt _ := PyFloat.finite (mkRat 4607 100)
  CalcMolFormula _ := "C2H6O"

/-- C1: for every input string that the external parser rejects (returns
`None`), both the scalar accessor `mol_weight` and the bundle accessor
`molecule_info` fail with a `ValueError` (the single InvalidStructure
error kind) rather than returning a value. -/
theorem C1_reject_both_fail {Mol : Type} (lib : RDKit Mol) (s : String)
    (h : lib.MolFromSmiles s = Option.none) :
    (∃ msg, chemengine.mol_weight lib s = Except.error (PyError.valueError msg)) ∧
    (∃ msg, chem_engine.molecule_info lib s = Except.error (PyError.valueError msg)) := by
  refine ⟨⟨"Mol inválido: " ++ s, ?_⟩, ⟨"SMILES inválido", ?_⟩⟩
  · simp [chemengine.mol_weight, chemengine.mol_from_smiles, h]
  · simp [chem_engine.molecule_info, h]

/-- C1 witness: evaluated at `toyLib` on the rejected inputs
`"invalid_smiles_string"` and `""`. -/
theorem C1_witness :
    (toyLib.MolFromSmiles "invalid_smiles_string" = Option.none ∧
      (∃ msg, chemengine.mol_weight toyLib "invalid_smiles_string" =
        Except.error (PyError.valueError msg)) ∧
      (∃ msg, chem_engine.molecule_info toyLib "invalid_smiles_string" =
        Except.error (PyError.valueError msg))) ∧
    (toyLib.MolFromSmiles "" = Option.none ∧
      (∃ msg, chemengine.mol_weight toyLib "" =
        Except.error (PyError.valueError msg)) ∧
      (∃ msg, chem_engine.molecule_info toyLib "" =
        Except.error (PyError.valueError msg))) :=
  ⟨⟨by decide, C1_reject_both_fail toyLib "invalid_smiles_string" (by decide)⟩,
   ⟨by decide, C1_reject_both_fail toyLib "" (by decide)⟩⟩

/-- C2: for every input string that the external parser accepts,
`molecule_info` returns the mapping with exactly the six keys `smiles`,
`inchi`, `inchikey`, `num_atoms`, `mol_weight`, `mol_formula`, populated
in sequence by the library's serializer, InChI generator, InChI-key
generator, atom-count accessor, weight descriptor and formula calculator
on the parsed molecule. -/
theorem C2_bundle_fields {Mol : Type} (lib : RDKit Mol) (s : String) (m : Mol)
    (h : lib.MolFromSmiles s = Option.some m) :
    chem_engine.molecule_info lib s = Except.ok
      [("smiles", PyVal.str (lib.MolToSmiles m)),
       ("inchi", PyVal.str (lib.MolToInchi m)),
       ("inchikey", PyVal.str (lib.MolToInchiKey m)),
       ("num_atoms", PyVal.int (lib.GetNumAtoms m)),
       ("mol_weight", PyVal.float (lib.MolWt m)),
       ("mol_formula", PyVal.str (lib.CalcMolFormula m))] := by
  simp [chem_engine.molecule_info, chem_engine.bundle, h]

/-- C2 witness: evaluated at `toyLib` on the accepted input `"CCO"`. -/
theorem C2_witness :
    toyLib.MolFromSmiles "CCO" = Option.some () ∧
    chem_engine.molecule_info toyLib "CCO" = Except.ok
      [("smiles", PyVal.str "CCO"),
       ("inchi", PyVal.str "InChI=1S/C2H6O/c1-2-3/h3H,2H2,1H3"),
       ("inchikey", PyVal.str "LFQSCWFLJHTTHZ-UHFFFAOYSA-N"),
       ("num_atoms", PyVal.int 3),
       ("mol_weight", PyVal.float (PyFloat.finite (mkRat 4607 100))),
       ("mol_formula", PyVal.str "C2H6O")] :=
  ⟨by decide, C2_bundle_fields toyLib "CCO" () (by decide)⟩

/-- C3: for every accepted input, `mol_weight` returns exactly the
library's weight-descriptor value for the parsed molecule coerced by
`float`, which is the identity on a float; a single pass-through with no
caching or retry. -/
theorem C3_weight_passthrough {Mol : Type} (lib : RDKit Mol) (s : String) (m : Mol)
    (h : lib.MolFromSmiles s = Option.some m) :
    chemengine.mol_weight lib s = Except.ok (float (lib.MolWt m)) ∧
    float (lib.MolWt m) = lib.MolWt m := by
  refine ⟨?_, rfl⟩
  simp [chemengine.mol_weight, chemengine.mol_from_smiles, h]

/-- C3 witness: evaluated at `toyLib` on the accepted input `"CCO"`. -/
theorem C3_witness :
    chemengine.mol_weight toyLib "CCO" =
      Except.ok (float (PyFloat.finite (mkRat 4607 100))) ∧
    float (PyFloat.finite (mkRat 4607 100)) = PyFloat.finite (mkRat 4607 100) :=
  C3_weight_passthrough toyLib "CCO" () (by decide)

/-- C4: a descriptor bundle is only ever produced from a successfully
parsed molecule: every `Except.ok` result of `molecule_info` is the full
six-field bundle of a molecule the parser returned, and on parse failure
the result is the error, identical for every choice of the six descriptor
sub-functions — so none of them is consulted and no partial bundle is
exposed. -/
theorem C4_bundle_only_from_parse {Mol : Type} (lib : RDKit Mol) (s : String) :
    (∀ b, chem_engine.molecule_info lib s = Except.ok b →
      ∃ m, lib.MolFromSmiles s = Option.some m ∧ b = chem_engine.bundle lib m) ∧
    (lib.MolFromSmiles s = Option.none →
      ∀ (f1 f2 f3 : Mol → String) (f4 : Mol → Nat) (f5 : Mol → PyFloat)
        (f6 : Mol → String),
        chem_engine.molecule_info
          (RDKit.mk lib.MolFromSmiles f1 f2 f3 f4 f5 f6) s =
          Except.error (PyError.valueError "SMILES inválido")) := by
  constructor
  · intro b hb
    unfold chem_engine.molecule_info at hb
    cases hm : lib.MolFromSmiles s with
    | none => rw [hm] at hb; cases hb
    | some m =>
      rw [hm] at hb
      exact ⟨m, rfl, (Except.ok.inj hb).symm⟩
  · intro h f1 f2 f3 f4 f5 f6
    simp [chem_engine.molecule_info, h]

/-- C4 witness: evaluated at `toyLib` on the accepted input `"CCO"` and
(for the failure branch) the rejected input `""` with arbitrary concrete
descriptor sub-functions. -/
theorem C4_witness :
    (∃ m, toyLib.MolFromSmiles "CCO" = Option.some m ∧
      chem_engine.bundle toyLib () = chem_engine.bundle toyLib m) ∧
    chem_engine.molecule_info
      (RDKit.mk toyLib.MolFromSmiles (fun _ => "a") (fun _ => "b")
        (fun _ => "c") (fun _ => 0) (fun _ => PyFloat.nan) (fun _ => "d")) "" =
      Except.error (PyError.valueError "SMILES inválido") :=
  ⟨(C4_bundle_only_from_parse toyLib "CCO").1 (chem_engine.bundle toyLib ()) rfl,
   (C4_bundle_only_from_parse toyLib "").2 (by decide)
     (fun _ => "a") (fun _ => "b") (fun _ => "c")
     (fun _ => 0) (fun _ => PyFloat.nan) (fun _ => "d")⟩

/-- C5: when the parser signals an unparseable structure,
`mol_from_smiles` fails with a `ValueError` whose message carries the
offending input string, and `mol_weight` propagates this same error
unchanged. -/
theorem C5_error_carries_input {Mol : Type} (lib : RDKit Mol) (s : String)
    (h : lib.MolFromSmiles s = Option.none) :
    chemengine.mol_from_smiles lib s =
      Except.error (PyError.valueError ("Mol inválido: " ++ s)) ∧
    strContains ("Mol inválido: " ++ s) s ∧
    chemengine.mol_weight lib s =
      Except.error (PyError.valueError ("Mol inválido: " ++ s)) := by
  refine ⟨?_, ⟨"Mol inválido: ", "", (String.append_empty _).symm⟩, ?_⟩
  · simp [chemengine.mol_from_smiles, h]
  · simp [chemengine.mol_weight, chemengine.mol_from_smiles, h]

/-- C5 witness: evaluated at `toyLib` on the rejected input
`"invalid_smiles_string"`. -/
theorem C5_witness :
    chemengine.mol_from_smiles toyLib "invalid_smiles_string" =
      Except.error
        (PyError.valueError ("Mol inválido: " ++ "invalid_smiles_string")) ∧
    strContains ("Mol inválido: " ++ "invalid_smiles_string")
      "invalid_smiles_string" ∧
    chemengine.mol_weight toyLib "invalid_smiles_string" =
      Except.error
        (PyError.valueError ("Mol inválido: " ++ "invalid_smiles_string")) :=
  C5_error_carries_input toyLib "invalid_smiles_string" (by decide)

/-- C6: determinism — for a fixed valid input, two runs of the embedded
`mol_weight` and of the embedded `molecule_info` on the same input and
the same (deterministic) library yield identical output. -/
theorem C6_deterministic {Mol : Type} (lib : RDKit Mol) (s : String) (m : Mol)
    (_h : lib.MolFromSmiles s = Option.some m) :
    chemengine.mol_weight lib s = chemengine.mol_weight lib s ∧
    chem_engine.molecule_info lib s = chem_engine.molecule_info lib s :=
  ⟨rfl, rfl⟩

/-- C6 witness: evaluated at `toyLib` on the accepted input `"CCO"`. -/
theorem C6_witness :
    chemengine.mol_weight toyLib "CCO" = chemengine.mol_weight toyLib "CCO" ∧
    chem_engine.molecule_info toyLib "CCO" =
      chem_engine.molecule_info toyLib "CCO" :=
  C6_deterministic toyLib "CCO" () (by decide)

/-- C7: assuming the library's weight descriptor yields non-negative
finite floats, for every accepted input `mol_weight` returns a
non-negative finite float and `molecule_info` returns a bundle in which
all six fields are populated and non-null. -/
theorem C7_valid_output {Mol : Type} (lib : RDKit Mol) (s : String) (m : Mol)
    (h : lib.MolFromSmiles s = Option.some m)
    (hw : ∀ x : Mol, (lib.MolWt x).isFinite = true ∧ (lib.MolWt x).nonneg = true) :
    (∃ w, chemengine.mol_weight lib s = Except.ok w ∧
      w.isFinite = true ∧ w.nonneg = true) ∧
    (∃ b, chem_engine.molecule_info lib s = Except.ok b ∧
      ∀ k ∈ ["smiles", "inchi", "inchikey", "num_atoms", "mol_weight",
        "mol_formula"],
        ∃ v, b.lookup k = Option.some v ∧ v ≠ PyVal.none) := by
  constructor
  · refine ⟨float (lib.MolWt m), ?_, (hw m).1, (hw m).2⟩
    simp [chemengine.mol_weight, chemengine.mol_from_smiles, h]
  · refine ⟨chem_engine.bundle lib m, ?_, ?_⟩
    · simp [chem_engine.molecule_info, h]
    · intro k hk
      simp only [List.mem_cons, List.not_mem_nil, or_false] at hk
      rcases hk with rfl | rfl | rfl | rfl | rfl | rfl
      · exact ⟨PyVal.str (lib.MolToSmiles m),
          by simp [chem_engine.bundle, List.lookup], by simp⟩
      · exact ⟨PyVal.str (lib.MolToInchi m),
          by simp [chem_engine.bundle, List.lookup], by simp⟩
      · exact ⟨PyVal.str (lib.MolToInchiKey m),
          by simp [chem_engine.bundle, List.lookup], by simp⟩
      · exact ⟨PyVal.int (lib.GetNumAtoms m),
          by simp [chem_engine.bundle, List.lookup], by simp⟩
      · exact ⟨PyVal.float (lib.MolWt m),
          by simp [chem_engine.bundle, List.lookup], by simp⟩
      · exact ⟨PyVal.str (lib.CalcMolFormula m),
          by simp [chem_engine.bundle, List.lookup], by simp⟩

/-- C7 witness: evaluated at `toyLib` on the accepted input `"CCO"`,
whose weight descriptor is the finite non-negative value `4607 / 100`. -/
theorem C7_witness :
    (∃ w, chemengine.mol_weight toyLib "CCO" = Except.ok w ∧
      w.isFinite = true ∧ w.nonneg = true) ∧
    (∃ b, chem_engine.molecule_info toyLib "CCO" = Except.ok b ∧
      ∀ k ∈ ["smiles", "inchi", "inchikey", "num_atoms", "mol_weight",
        "mol_formula"],
        ∃ v, b.lookup k = Option.some v ∧ v ≠ PyVal.none) :=
  C7_valid_output toyLib "CCO" () (by decide)
    (by intro u; cases u; exact ⟨rfl, by decide⟩)

/-- C8: assuming the library's canonicalization is stable (re-parsing a
canonical SMILES succeeds and preserves the InChI key), feeding the
`smiles` field of `molecule_info "CCO"` back into `molecule_info` yields
a bundle with the same `inchikey` as the original call. -/
theorem C8_roundtrip {Mol : Type} (lib : RDKit Mol) (m0 : Mol)
    (h0 : lib.MolFromSmiles "CCO" = Option.some m0)
    (hstable : ∀ x : Mol, ∃ y,
      lib.MolFromSmiles (lib.MolToSmiles x) = Option.some y ∧
      lib.MolToInchiKey y = lib.MolToInchiKey x) :
    ∃ b c bb, chem_engine.molecule_info lib "CCO" = Except.ok b ∧
      b.lookup "smiles" = Option.some (PyVal.str c) ∧
      chem_engine.molecule_info lib c = Except.ok bb ∧
      bb.lookup "inchikey" = b.lookup "inchikey" := by
  obtain ⟨y, hy, hk⟩ := hstable m0
  refine ⟨chem_engine.bundle lib m0, lib.MolToSmiles m0,
    chem_engine.bundle lib y, ?_, ?_, ?_, ?_⟩
  · simp [chem_engine.molecule_info, h0]
  · simp [chem_engine.bundle, List.lookup]
  · simp [chem_engine.molecule_info, hy]
  · simp [chem_engine.bundle, List.lookup, hk]

/-- C8 witness: evaluated at `toyLib`, whose serializer returns the
accepted canonical form `"CCO"` for every molecule. -/
theorem C8_witness :
    ∃ b c bb, chem_engine.molecule_info toyLib "CCO" = Except.ok b ∧
      b.lookup "smiles" = Option.some (PyVal.str c) ∧
      chem_engine.molecule_info toyLib c = Except.ok bb ∧
      bb.lookup "inchikey" = b.lookup "inchikey" :=
  C8_roundtrip toyLib () (by decide)
    (by intro u; cases u; exact ⟨(), by decide, rfl⟩)

/-- C9: for every accepted input, the two modules' weight computations
agree — `mol_weight` returns exactly the value stored under the
`mol_weight` key of the bundle returned by `molecule_info`, even though
one path applies the (identity) `float` coercion and the other stores
the descriptor directly. -/
theorem C9_weights_agree {Mol : Type} (lib : RDKit Mol) (s : String) (m : Mol)
    (h : lib.MolFromSmiles s = Option.some m) :
    ∃ w b, chemengine.mol_weight lib s = Except.ok w ∧
      chem_engine.molecule_info lib s = Except.ok b ∧
      b.lookup "mol_weight" = Option.some (PyVal.float w) := by
  refine ⟨float (lib.MolWt m), chem_engine.bundle lib m, ?_, ?_, ?_⟩
  · simp [chemengine.mol_weight, chemengine.mol_from_smiles, h]
  · simp [chem_engine.molecule_info, h]
  · simp [chem_engine.bundle, List.lookup, float]

/-- C9 witness: evaluated at `toyLib` on the accepted input `"CCO"`. -/
theorem C9_witness :
    ∃ w b, chemengine.mol_weight toyLib "CCO" = Except.ok w ∧
      chem_engine.molecule_info toyLib "CCO" = Except.ok b ∧
      b.lookup "mol_weight" = Option.some (PyVal.float w) :=
  C9_weights_agree toyLib "CCO" () (by decide)

/-- C10 counterexample: at the rejected input `""`, `molecule_info`
fails with the fixed message `"SMILES inválido"`, which DOES contain the
offending input string (every string contains the empty string as a
substring), refuting the claim that the message never contains the
offending input. -/
theorem C10_counterexample :
    toyLib.MolFromSmiles "" = Option.none ∧
    chem_engine.molecule_info toyLib "" =
      Except.error (PyError.valueError "SMILES inválido") ∧
    strContains "SMILES inválido" "" :=
  ⟨by decide, rfl, ⟨"SMILES inválido", "", by decide⟩⟩

/-- C10 amended: on parse failure the two entry points report the same
error kind (`ValueError`) with divergent, asymmetric messages:
`molecule_info` fails with the fixed message `"SMILES inválido"`,
independent of the offending input, while `mol_weight` fails with
`"Mol inválido: "` followed by the input, a message that always contains
the offending input string. -/
theorem C10_divergent_messages {Mol : Type} (lib : RDKit Mol) (s : String)
    (h : lib.MolFromSmiles s = Option.none) :
    chem_engine.molecule_info lib s =
      Except.error (PyError.valueError "SMILES inválido") ∧
    chemengine.mol_weight lib s =
      Except.error (PyError.valueError ("Mol inválido: " ++ s)) ∧
    strContains ("Mol inválido: " ++ s) s := by
  refine ⟨?_, ?_, ⟨"Mol inválido: ", "", (String.append_empty _).symm⟩⟩
  · simp [chem_engine.molecule_info, h]
  · simp [chemengine.mol_weight, chemengine.mol_from_smiles, h]

/-- C10 witness: evaluated at `toyLib` on the rejected input
`"invalid_smiles_string"`. -/
theorem C10_witness :
    chem_engine.molecule_info toyLib "invalid_smiles_string" =
      Except.error (PyError.valueError "SMILES inválido") ∧
    chemengine.mol_weight toyLib "invalid_smiles_string" =
      Except.error
        (PyError.valueError ("Mol inválido: " ++ "invalid_smiles_string")) ∧
    strContains ("Mol inválido: " ++ "invalid_smiles_string")
      "invalid_smiles_string" :=
  C10_divergent_messages toyLib "invalid_smiles_string" (by decide)
